import Mathlib

/-!
Verification development for the wall-display repository
(`src/wall_display.py`, the current rewrite, which its tests target).

The Python program is shallowly embedded: pure fragments become Lean
functions, the pygame/file-system boundary becomes explicit function
parameters (directory listings, image decoding), and the controller
(`WallDisplayApp`) becomes a state record with one step function per
display-thread event.  The worker threads' result hand-off is NOT
atomic in the source — the guard and the append are two separate
operations on a bare shared list — so the interleaving model gives each
in-flight worker its own state and splits its hand-off into two
separately schedulable events.
-/

namespace WallDisplay

/-! ## Python value model (JSON documents and config dictionaries)

`json.load` produces nested dict/list/scalar values; `ConfigManager`
only ever manipulates the top level of such a document as a dict.
Arrays in the shipped configuration are arrays of integers (colors),
so the array constructor carries `List Int`. -/

inductive PyVal where
  | vbool (b : Bool)
  | vint (n : Int)
  | vstr (s : String)
  | vlist (xs : List Int)
  | vdict (fields : List (String × PyVal))

/-- A Python dict of string keys, as an insertion-ordered association list
(keys are unique in any dict produced by `json.load` or written literally). -/
abbrev PyDict := List (String × PyVal)

/-- `d.get(k)` / `d[k]` read: first binding of `k`, if any. -/
def dictGet (d : PyDict) (k : String) : Option PyVal :=
  (d.find? (fun p => p.1 == k)).map (·.2)

/-- `k in d`. -/
def dictHasKey (d : PyDict) (k : String) : Bool :=
  d.any (fun p => p.1 == k)

/-- `d[k] = v`: replace the value at an existing key in place, else append
(CPython dicts keep the key's original position on overwrite). -/
def dictSet (d : PyDict) (k : String) (v : PyVal) : PyDict :=
  if dictHasKey d k then d.map (fun p => if p.1 == k then (k, v) else p)
  else d ++ [(k, v)]

/-- `d.update(u)`: assign every binding of `u` into `d`, in order. -/
def dictUpdate (d u : PyDict) : PyDict :=
  u.foldl (fun acc p => dictSet acc p.1 p.2) d

/-- `ConfigManager.DEFAULT_CONFIG` (src/wall_display.py lines 38-52). -/
def DEFAULT_CONFIG : PyDict :=
  [("window", .vdict [("fullscreen", .vbool true), ("menu_width", .vint 205),
                      ("fps", .vint 30)]),
   ("slideshow", .vdict [("image_delay_ms", .vint 15000),
                         ("start_delay_ms", .vint 20000),
                         ("fade_speed_ms", .vint 20)]),
   ("colors", .vdict [("background", .vlist [0, 0, 0]),
                      ("font_active", .vlist [255, 255, 255]),
                      ("font_inactive", .vlist [100, 100, 100]),
                      ("loading_text", .vlist [255, 255, 0]),
                      ("spinner", .vlist [0, 200, 255])])]

/-- The three ways `ConfigManager._load_config` can see its input file:
absent, present but not valid JSON (`json.JSONDecodeError`), or a parsed
JSON object document.  (A JSON document that is not an object would make
`dict.update` raise an uncaught `TypeError`; that path never yields a
configuration and is outside this model.) -/
inductive ConfigSource where
  | missing
  | malformed
  | doc (d : PyDict)

/-- `ConfigManager._load_config` (src/wall_display.py lines 57-71):
missing file or parse error falls back to `DEFAULT_CONFIG.copy()`;
otherwise `final = DEFAULT_CONFIG.copy(); final.update(user); final`. -/
def load_config : ConfigSource → PyDict
  | .missing => DEFAULT_CONFIG
  | .malformed => DEFAULT_CONFIG
  | .doc d => dictUpdate DEFAULT_CONFIG d

/-- `ConfigManager.get(section, key)` (lines 73-75):
`self.data.get(section, {}).get(key)`.  When the section's value exists
but is not a dict the source raises `AttributeError`; that case is
modelled as no value. -/
def cfgGet (data : PyDict) (sect key : String) : Option PyVal :=
  match dictGet data sect with
  | some (.vdict fields) => dictGet fields key
  | _ => none

/-! ## Python string and int helpers -/

/-- The whitespace characters Python `str.strip()` removes by default. -/
def pyIsSpace (c : Char) : Bool :=
  c == ' ' || c == '\t' || c == '\n' || c == '\r' || c == '\x0b' || c == '\x0c'

/-- Strip leading and trailing Python whitespace from a character list. -/
def pyStripChars (cs : List Char) : List Char :=
  ((cs.dropWhile pyIsSpace).reverse.dropWhile pyIsSpace).reverse

/-- Python `str.strip()`. -/
def pyStrip (s : String) : String := String.mk (pyStripChars s.toList)

/-- Decimal value of a digit run. -/
def digitsToNat (cs : List Char) : Nat :=
  cs.foldl (fun n c => n * 10 + (c.toNat - 48)) 0

/-- Python `int(s)`: strip whitespace, optional single sign, then a
non-empty run of decimal digits; anything else raises `ValueError`,
modelled as `none`.  (Scope: ASCII digits, no underscore separators.) -/
def pyInt (s : String) : Option Int :=
  let t := pyStripChars s.toList
  let (sign, digits) :=
    match t with
    | '-' :: rest => ((-1 : Int), rest)
    | '+' :: rest => ((1 : Int), rest)
    | _ => ((1 : Int), t)
  if !digits.isEmpty && digits.all Char.isDigit then
    some (sign * (digitsToNat digits : Int))
  else none

/-- `pathlib.PurePath.suffix` of a file name: `name[i:]` where `i` is the
index of the last dot, provided `0 < i < len(name) - 1`, else `""`. -/
def pySuffix (s : String) : String :=
  let cs := s.toList
  let n := cs.length
  match ((List.range n).filter (fun i => cs.getD i 'a' == '.')).getLast? with
  | some i => if 0 < i && i < n - 1 then String.mk (cs.drop i) else ""
  | none => ""

/-- Python `str.lower()` restricted to ASCII letters (file extensions). -/
def asciiLower (s : String) : String := String.mk (s.toList.map Char.toLower)

/-! ## AssetManager (src/wall_display.py lines 78-143)

File-system access is abstracted as a directory-listing oracle
`L : String → Option (List String)`: `none` means the directory does not
exist, `some files` its (unordered) `iterdir` entries by file name. -/

/-- `f.suffix.lower() in (".jpg", ".jpeg")` (line 118). -/
def isJpgExt (f : String) : Bool :=
  let e := asciiLower (pySuffix f)
  e == ".jpg" || e == ".jpeg"

/-- `AssetManager._scan_images` (lines 114-119): missing directory gives
`[]`; otherwise the `.jpg`/`.jpeg` entries, sorted ascending by name. -/
def scan_images (L : String → Option (List String)) (dir : String) : List String :=
  match L dir with
  | none => []
  | some files => List.insertionSort (· ≤ ·) (files.filter isJpgExt)

/-- An entry of `load_images_threaded`'s result buffer: the tuple
`(path.name, img, bg_surface)` (line 139), with decoded surfaces of
abstract type `Img`. -/
structure ImageResource (Img : Type) where
  name : String
  img : Img
  bg : Img

/-- `AssetManager.load_images_threaded` (lines 121-143): decode each path
in order; a decode failure (`pygame.error`/`OSError`) skips the entry.
`decode` models `pygame.image.load(...).convert()` and `mkBg` the blitted
background copy of lines 136-137. -/
def load_images_threaded {Img : Type} (decode : String → Option Img)
    (mkBg : Img → Img) : List String → List (ImageResource Img)
  | [] => []
  | p :: rest =>
    match decode p with
    | some img => ⟨p, img, mkBg img⟩ :: load_images_threaded decode mkBg rest
    | none => load_images_threaded decode mkBg rest

/-- The `MenuItem` dataclass (lines 24-32), with `Path` as `String`. -/
structure MenuItem where
  menu_id : Int
  directory : String
  menu_name : String
  description : String
  image_paths : List String

/-- Field access `row[i]` of a CSV row (always guarded by a length
check in the source, so the default is never observable). -/
def fld (row : List String) (i : Nat) : String := row.getD i ""

/-- The row filter of line 96: `len(row) > 3 and int(row[2]) == 1`,
for rows on which `int(row[2])` succeeds. -/
def rowSelected (row : List String) : Bool :=
  row.length > 3 && pyInt (fld row 2) == some 1

/-- Whether a row gets through lines 96-108 without a `ValueError`:
short rows never raise (the `and` short-circuits), otherwise `int(row[2])`
must parse, and when it equals 1 so must `int(row[0].strip())`. -/
def rowOk (row : List String) : Bool :=
  if row.length > 3 then
    match pyInt (fld row 2) with
    | none => false
    | some en => if en == 1 then (pyInt (pyStrip (fld row 0))).isSome else true
  else true

/-- The `MenuItem` built from a selected, well-formed row (lines 100-108). -/
def rowToItem (root : String) (L : String → Option (List String))
    (row : List String) : MenuItem :=
  let dir := root ++ "/" ++ pyStrip (fld row 1)
  { menu_id := (pyInt (pyStrip (fld row 0))).getD 0
    directory := dir
    menu_name := pyStrip (fld row 3)
    description := if row.length > 4 then pyStrip (fld row 4) else ""
    image_paths := scan_images L dir }

/-- The row loop of `AssetManager.load_menu_structure` (lines 91-112).
The `try` block wraps the whole loop, so a `ValueError` while parsing a
field stops iteration: the items accumulated so far are returned (the
`except` arm only logs) and the failing row and every later row are
dropped.  That abort is the `none` branches below returning `[]`. -/
def parseRows (root : String) (L : String → Option (List String)) :
    List (List String) → List MenuItem
  | [] => []
  | row :: rest =>
    if row.length > 3 then
      match pyInt (fld row 2) with
      | none => []
      | some en =>
        if en == 1 then
          match pyInt (pyStrip (fld row 0)) with
          | none => []
          | some _ => rowToItem root L row :: parseRows root L rest
        else parseRows root L rest
    else parseRows root L rest

/-- `AssetManager.load_menu_structure` (lines 84-112): `catalog = none`
models a missing `menu.data` file (lines 87-89, returns `[]`);
`some rows` the file's rows as split by `csv.reader(delimiter=":")`. -/
def load_menu_structure (root : String) (L : String → Option (List String))
    (catalog : Option (List (List String))) : List MenuItem :=
  match catalog with
  | none => []
  | some rows => parseRows root L rows

/-! ## WallDisplayApp controller (src/wall_display.py lines 267-446)

All mutation of display state happens on the single display thread,
except the worker threads' hand-off: a worker finishing its load runs
the guard `req_id == self.load_request_id` (line 328) and, separately,
the append to the bare shared list (line 329).  Those two worker steps
are individually interleavable with the display thread — there is no
lock — so the model gives each in-flight worker its own small state and
makes the guard evaluation and the append two distinct events.  Each
queue entry carries, as ghost data, the `req_id` of the worker that
appended it — the source stores only the result list, and the id plays
no role beyond the line-328 guard and the statements of the theorems. -/

/-- Mutable display state of `WallDisplayApp` (lines 284-293). -/
structure AppState (Img : Type) where
  menu_items : List MenuItem
  current_index : Nat
  current_img_list : List (ImageResource Img)
  current_img_bg : Option Img
  is_loading : Bool
  load_request_id : Nat
  loaded_result_queue : List (Nat × List (ImageResource Img))

/-- Observable renderer calls a step makes, in order. -/
inductive Effect (Img : Type) where
  | fade (old : Option Img) (new : Img)
  | setTimer (delay : Option PyVal)

/-- The two `_rotate_images` directions (line 354). -/
inductive Direction where
  | left
  | right

/-- `lst.append(lst.pop(0))` (line 360): head moves to the tail. -/
def rotateLeftList {α : Type} : List α → List α
  | [] => []
  | x :: xs => xs ++ [x]

/-- `lst.insert(0, lst.pop())` (line 362): tail moves to the head. -/
def rotateRightList {α : Type} (l : List α) : List α :=
  match l.getLast? with
  | none => l
  | some a => a :: l.dropLast

/-- `_reset_slideshow_timer` (lines 368-374): one `set_timer` call with
the configured start or per-image delay. -/
def reset_slideshow_timer {Img : Type} (cfg : PyDict) (is_start : Bool) :
    Effect Img :=
  .setTimer (cfgGet cfg "slideshow"
    (if is_start then "start_delay_ms" else "image_delay_ms"))

/-- `WallDisplayApp._rotate_images` (lines 354-366): no-op on an empty
ring or while loading; otherwise rotate, cross-fade to the new head's
background and record it.  (The inner `none` branch is unreachable:
rotating a non-empty list is non-empty; the source would raise
`IndexError` there.) -/
def rotate_images {Img : Type} (d : Direction) (s : AppState Img) :
    AppState Img × List (Effect Img) :=
  if s.current_img_list.isEmpty || s.is_loading then (s, [])
  else
    let l := match d with
      | .left => rotateLeftList s.current_img_list
      | .right => rotateRightList s.current_img_list
    match l.head? with
    | none => ({ s with current_img_list := l }, [])
    | some r =>
      ({ s with current_img_list := l, current_img_bg := some r.bg },
       [.fade s.current_img_bg r.bg])

/-- `WallDisplayApp._trigger_category_load` (lines 312-336): record the
target index, enter Loading, clear stale queued results and bump the
request counter.  (The spawned worker's completion is the separate
`worker_post` step.) -/
def trigger_category_load {Img : Type} (newIndex : Nat) (s : AppState Img) :
    AppState Img :=
  { s with current_index := newIndex
           is_loading := true
           loaded_result_queue := []
           load_request_id := s.load_request_id + 1 }

/-- `WallDisplayApp._check_loading_complete` (lines 338-352): pop the
first queued result, install it as the live ring, leave Loading, and if
the new ring is non-empty cross-fade to its first image; either way reset
the slideshow timer to the start delay. -/
def check_loading_complete {Img : Type} (cfg : PyDict) (s : AppState Img) :
    AppState Img × List (Effect Img) :=
  match s.loaded_result_queue with
  | [] => (s, [])
  | (_, imgs) :: rest =>
    let s1 := { s with loaded_result_queue := rest
                       current_img_list := imgs
                       is_loading := false }
    match imgs.head? with
    | some r0 =>
      ({ s1 with current_img_bg := some r0.bg },
       [.fade s.current_img_bg r0.bg, reset_slideshow_timer cfg true])
    | none => (s1, [reset_slideshow_timer cfg true])

/-- Where a spawned worker thread (lines 323-329) stands: still inside
`load_images_threaded` (line 325), past the line-328 guard with the
comparison's outcome in hand, or finished (posted or dropped). -/
inductive WorkerPhase where
  | running
  | decided (take : Bool)
  | exited

/-- One in-flight worker: the `req_id` it was spawned with (line 318,
the counter value right after the increment), the results its
`load_images_threaded` call will produce, and its phase. -/
structure WorkerState (Img : Type) where
  req_id : Nat
  results : List (ImageResource Img)
  phase : WorkerPhase

/-- The display state together with the in-flight worker threads,
indexed by spawn order. -/
structure SysState (Img : Type) where
  app : AppState Img
  workers : List (WorkerState Img)

/-- The interleavable events: the display thread's category switch
(which also spawns a worker; the results that worker will eventually
produce stand for `load_images_threaded(item.image_paths)` and are a
parameter of the event), the once-per-frame completion poll (guarded by
`is_loading`, lines 420-421), a manual rotate key, the auto-advance
timer event (ignored while loading, line 391) — and, on a worker
thread, the line-328 guard evaluation and the line-329 append as two
SEPARATE events, as in the source, where no lock joins them. -/
inductive SysAct (Img : Type) where
  | trigger (newIndex : Nat) (results : List (ImageResource Img))
  | workerGuard (w : Nat)
  | workerPost (w : Nat)
  | pollComplete
  | rotate (d : Direction)
  | autoAdvance

/-- One interleaved event of the system (renderer effects dropped). -/
def sysStep {Img : Type} (cfg : PyDict) :
    SysAct Img → SysState Img → SysState Img
  | .trigger i res => fun σ =>
      let app' := trigger_category_load i σ.app
      { app := app'
        workers := σ.workers ++ [⟨app'.load_request_id, res, .running⟩] }
  | .workerGuard w => fun σ =>
      match σ.workers.get? w with
      | some wk =>
        match wk.phase with
        | .running =>
            let wk' : WorkerState Img :=
              { wk with phase := .decided (wk.req_id == σ.app.load_request_id) }
            { σ with workers := σ.workers.set w wk' }
        | _ => σ
      | none => σ
  | .workerPost w => fun σ =>
      match σ.workers.get? w with
      | some wk =>
        match wk.phase with
        | .decided true =>
            { app := { σ.app with loaded_result_queue :=
                         σ.app.loaded_result_queue ++ [(wk.req_id, wk.results)] }
              workers := σ.workers.set w { wk with phase := .exited } }
        | .decided false =>
            { σ with workers := σ.workers.set w { wk with phase := .exited } }
        | _ => σ
      | none => σ
  | .pollComplete => fun σ =>
      { σ with app :=
          if σ.app.is_loading then (check_loading_complete cfg σ.app).1
          else σ.app }
  | .rotate d => fun σ => { σ with app := (rotate_images d σ.app).1 }
  | .autoAdvance => fun σ =>
      { σ with app :=
          if σ.app.is_loading then σ.app
          else (rotate_images Direction.left σ.app).1 }

/-- Run a sequence of interleaved events. -/
def runSys {Img : Type} (cfg : PyDict) :
    List (SysAct Img) → SysState Img → SysState Img
  | [], σ => σ
  | a :: rest, σ => runSys cfg rest (sysStep cfg a σ)

/-- What the drawing section of `run` (lines 428-441) paints in the
content area: the spinner while loading, else the current background
if there is one, else nothing. -/
inductive Frame (Img : Type) where
  | spinner
  | image (bg : Img)
  | blank

/-- The per-frame content-area decision of `run` (lines 428-441). -/
def renderFrame {Img : Type} (s : AppState Img) : Frame Img :=
  if s.is_loading then .spinner
  else match s.current_img_bg with
    | some bg => .image bg
    | none => .blank

/-- The queue invariant ASSERTED by the spec: every queued result
carries the current counter value, so only a matching-id result can be
consumed.  It would follow if the line-328 guard and line-329 append
were one atomic step (the queue is cleared whenever the counter moves,
line 316), but they are not: a trigger interleaved between a worker's
guard and its append puts a stale entry in the queue. -/
def QueueInv {Img : Type} (s : AppState Img) : Prop :=
  ∀ p ∈ s.loaded_result_queue, p.1 = s.load_request_id

/-- The state `__init__`/`_initialize_content` leave behind
(lines 284-310): index 0, first category's images, its first background
if any, not loading, counter 0, empty queue. -/
def initState {Img : Type} (items : List MenuItem)
    (firstImgs : List (ImageResource Img)) : AppState Img :=
  { menu_items := items
    current_index := 0
    current_img_list := firstImgs
    current_img_bg := firstImgs.head?.map (·.bg)
    is_loading := false
    load_request_id := 0
    loaded_result_queue := [] }

/-! ## Process exit model -/

/-- The argument `sys.exit` is called with: an integer status, or any
other object (a message string). -/
inductive ExitArg where
  | code (n : Int)
  | text (s : String)

/-- CPython `sys.exit` semantics: an `int` argument is the exit status;
any other object is printed to stderr and the status is 1. -/
def sysExitStatus : ExitArg → Int
  | .code n => n
  | .text _ => 1

/-- `_initialize_content` lines 300-301: with no menu items the app calls
`sys.exit("No menu data found")` (a `SystemExit` that the `except
Exception` clause of the `__main__` block does not catch); otherwise no
exit.  -/
def init_content_exit (items : List MenuItem) : Option ExitArg :=
  if items.isEmpty then some (.text "No menu data found") else none

/-- Line 446: a normal quit leaves `run` and calls `sys.exit(0)`. -/
def RUN_QUIT_EXIT : ExitArg := .code 0

/-! ## Shared helper lemmas -/

theorem hasKey_dictSet (d : PyDict) (k k' : String) (v : PyVal)
    (h : dictHasKey d k = true) : dictHasKey (dictSet d k' v) k = true := by
  unfold dictSet
  split
  · rcases List.any_eq_true.mp h with ⟨p, hp, hpk⟩
    refine List.any_eq_true.mpr ?_
    by_cases hk' : p.1 == k'
    · exact ⟨(k', v), List.mem_map.mpr ⟨p, hp, by simp [hk']⟩,
        by simp_all [beq_iff_eq]⟩
    · exact ⟨p, List.mem_map.mpr ⟨p, hp, by simp [hk']⟩, hpk⟩
  · unfold dictHasKey at h ⊢
    simp [List.any_append, h]

theorem hasKey_dictUpdate (u d : PyDict) (k : String)
    (h : dictHasKey d k = true) : dictHasKey (dictUpdate d u) k = true := by
  induction u generalizing d with
  | nil => exact h
  | cons p u ih => exact ih (dictSet d p.1 p.2) (hasKey_dictSet d k p.1 p.2 h)

theorem rotateRightList_rotateLeftList {α : Type} (l : List α) :
    rotateRightList (rotateLeftList l) = l := by
  cases l with
  | nil => rfl
  | cons x xs =>
    simp [rotateLeftList, rotateRightList, List.getLast?_concat,
      List.dropLast_concat]

/-- Example resources over `Img := Nat`, for concrete witnesses. -/
def sampleRes : ImageResource Nat := ⟨"a.jpg", 0, 1⟩

def sampleRes2 : ImageResource Nat := ⟨"b.jpg", 2, 3⟩

/-- A state captured mid-load: loading flag set, one matching queued
result, a previous background on screen. -/
def loadingApp : AppState Nat :=
  { menu_items := []
    current_index := 0
    current_img_list := [sampleRes]
    current_img_bg := some 1
    is_loading := true
    load_request_id := 1
    loaded_result_queue := [(1, [sampleRes2])] }

/-! ## Claims -/

/-- Claim C5: when the configuration file is missing or malformed,
loading yields the complete built-in default set exactly (in particular
`fps == 30`, `image_delay_ms == 15000`, `menu_width == 205`), and for
every user configuration document the result keeps every recognized
section key present (never a partial merge dropping a section). -/
theorem c5_config_defaults :
    load_config .missing = DEFAULT_CONFIG ∧
    load_config .malformed = DEFAULT_CONFIG ∧
    cfgGet (load_config .missing) "window" "fps" = some (.vint 30) ∧
    cfgGet (load_config .missing) "slideshow" "image_delay_ms"
      = some (.vint 15000) ∧
    cfgGet (load_config .missing) "window" "menu_width" = some (.vint 205) ∧
    (∀ d : PyDict, ∀ k ∈ (["window", "slideshow", "colors"] : List String),
      dictHasKey (load_config (.doc d)) k = true) := by
  refine ⟨rfl, rfl, rfl, rfl, rfl, fun d k hk => ?_⟩
  refine hasKey_dictUpdate d DEFAULT_CONFIG k ?_
  fin_cases hk <;> rfl

/-- Witness for C5 at a concrete document overriding one section. -/
theorem c5_config_defaults_witness :
    ("window" ∈ (["window", "slideshow", "colors"] : List String)) ∧
    dictHasKey (load_config (.doc [("window", PyVal.vint 3)])) "window" = true :=
  ⟨by decide,
   c5_config_defaults.2.2.2.2.2 [("window", PyVal.vint 3)] "window" (by decide)⟩

/-- Claim C2: while the loading flag is true, a manual rotate in either
direction returns the state unchanged and performs no renderer effect —
no rotation, no fade, no mutation of any field. -/
theorem c2_rotate_noop_while_loading {Img : Type} (d : Direction)
    (s : AppState Img) (h : s.is_loading = true) :
    rotate_images d s = (s, []) := by
  simp [rotate_images, h]

/-- Witness for C2 on a concrete mid-load state. -/
theorem c2_rotate_noop_while_loading_witness :
    loadingApp.is_loading = true ∧
    rotate_images Direction.left loadingApp = (loadingApp, []) :=
  ⟨rfl, c2_rotate_noop_while_loading Direction.left loadingApp rfl⟩

/-- Claim C9: rotate-left followed by rotate-right restores the original
ring (they are inverse), rotation of a singleton or empty ring is a
no-op, and at the application level a left-then-right rotation while not
loading restores the live ring's order. -/
theorem c9_rotate_inverse :
    (∀ (α : Type) (l : List α), rotateRightList (rotateLeftList l) = l) ∧
    (∀ (α : Type) (x : α),
      rotateLeftList [x] = [x] ∧ rotateRightList [x] = [x]) ∧
    (∀ α : Type,
      rotateLeftList ([] : List α) = [] ∧ rotateRightList ([] : List α) = []) ∧
    (∀ (Img : Type) (s : AppState Img), s.is_loading = false →
      ((rotate_images Direction.right
          (rotate_images Direction.left s).1).1).current_img_list
        = s.current_img_list) := by
  refine ⟨fun α l => rotateRightList_rotateLeftList l,
          fun α x => ⟨rfl, rfl⟩, fun α => ⟨rfl, rfl⟩, fun Img s h => ?_⟩
  rcases hl : s.current_img_list with _ | ⟨x, xs⟩
  · simp [rotate_images, hl]
  · cases xs with
    | nil => simp [rotate_images, hl, h, rotateLeftList, rotateRightList]
    | cons y ys =>
      have hgl : (y :: (ys ++ [x])).getLast? = some x := by
        rw [← List.cons_append]; exact List.getLast?_concat _
      have hdl : (y :: (ys ++ [x])).dropLast = y :: ys := by
        rw [← List.cons_append]; exact List.dropLast_concat
      simp [rotate_images, hl, h, rotateLeftList, rotateRightList, hgl, hdl]

/-- Witness for C9's hypothesis-bearing app-level conjunct. -/
theorem c9_rotate_inverse_witness :
    (initState [] [sampleRes, sampleRes2] : AppState Nat).is_loading = false ∧
    ((rotate_images Direction.right
        (rotate_images Direction.left
          (initState [] [sampleRes, sampleRes2])).1).1).current_img_list
      = [sampleRes, sampleRes2] :=
  ⟨rfl, c9_rotate_inverse.2.2.2 Nat (initState [] [sampleRes, sampleRes2]) rfl⟩

/-- Claim C3: consuming a delivered result whose request id equals the
current counter replaces the live ring with the delivered set, resets the
display to its first image, cross-fades from the previously displayed
background to the new first background, resets the auto-advance timer to
the start (category-just-changed) delay, and clears the loading flag. -/
theorem c3_commit_matching_result {Img : Type} (cfg : PyDict)
    (s : AppState Img) (r : Nat) (i0 : ImageResource Img)
    (imgs : List (ImageResource Img))
    (rest : List (Nat × List (ImageResource Img)))
    (hq : s.loaded_result_queue = (r, i0 :: imgs) :: rest)
    (hr : r = s.load_request_id) :
    check_loading_complete cfg s =
      ({ s with loaded_result_queue := rest
                current_img_list := i0 :: imgs
                is_loading := false
                current_img_bg := some i0.bg },
       [Effect.fade s.current_img_bg i0.bg,
        Effect.setTimer (cfgGet cfg "slideshow" "start_delay_ms")]) := by
  simp [check_loading_complete, hq, reset_slideshow_timer]

/-- Witness for C3 on a concrete mid-load state with a matching result. -/
theorem c3_commit_matching_result_witness :
    loadingApp.loaded_result_queue = (1, [sampleRes2]) :: [] ∧
    (1 : Nat) = loadingApp.load_request_id ∧
    check_loading_complete DEFAULT_CONFIG loadingApp =
      ({ loadingApp with loaded_result_queue := []
                         current_img_list := [sampleRes2]
                         is_loading := false
                         current_img_bg := some sampleRes2.bg },
       [Effect.fade loadingApp.current_img_bg sampleRes2.bg,
        Effect.setTimer (cfgGet DEFAULT_CONFIG "slideshow" "start_delay_ms")]) :=
  ⟨rfl, rfl,
   c3_commit_matching_result DEFAULT_CONFIG loadingApp 1 sampleRes2 [] [] rfl rfl⟩

/-- A state mid-load whose queued (matching) result is the empty set. -/
def emptyResultApp : AppState Nat :=
  { menu_items := []
    current_index := 0
    current_img_list := [sampleRes]
    current_img_bg := some 7
    is_loading := true
    load_request_id := 5
    loaded_result_queue := [(5, [])] }

/-- Claim C10: committing an empty delivered set clears the loading flag
and empties the live ring, performs no fade, leaves the previously
displayed background in place, and the next frame still renders that
prior background. -/
theorem c10_empty_commit_keeps_background {Img : Type} (cfg : PyDict)
    (s : AppState Img) (r : Nat)
    (rest : List (Nat × List (ImageResource Img))) (b : Img)
    (hq : s.loaded_result_queue = (r, []) :: rest)
    (hbg : s.current_img_bg = some b) :
    check_loading_complete cfg s =
      ({ s with loaded_result_queue := rest
                current_img_list := []
                is_loading := false },
       [Effect.setTimer (cfgGet cfg "slideshow" "start_delay_ms")]) ∧
    (check_loading_complete cfg s).1.current_img_bg = some b ∧
    renderFrame (check_loading_complete cfg s).1 = Frame.image b := by
  refine ⟨by simp [check_loading_complete, hq, reset_slideshow_timer], ?_, ?_⟩
  · simp [check_loading_complete, hq, hbg]
  · simp [check_loading_complete, hq, renderFrame, hbg]

/-- Witness for C10 on a concrete state. -/
theorem c10_empty_commit_keeps_background_witness :
    emptyResultApp.loaded_result_queue = (5, []) :: [] ∧
    emptyResultApp.current_img_bg = some 7 ∧
    renderFrame (check_loading_complete DEFAULT_CONFIG emptyResultApp).1
      = Frame.image 7 :=
  ⟨rfl, rfl,
   (c10_empty_commit_keeps_background DEFAULT_CONFIG emptyResultApp 5 [] 7
     rfl rfl).2.2⟩

/-- Claim C8: the image set loader returns exactly the directory entries
with a case-insensitive `.jpg`/`.jpeg` extension, in ascending lexical
filename order; a non-existent directory yields the empty set; and a file
that fails to decode is skipped without aborting the rest of the batch. -/
theorem c8_image_set_loader {Img : Type} (L : String → Option (List String))
    (dir : String) (decode : String → Option Img) (mkBg : Img → Img) :
    (L dir = none → scan_images L dir = []) ∧
    (∀ files, L dir = some files →
      List.Perm (scan_images L dir) (files.filter isJpgExt) ∧
      List.Sorted (· ≤ ·) (scan_images L dir)) ∧
    (∀ (pre post : List String) (p : String), decode p = none →
      load_images_threaded decode mkBg (pre ++ p :: post)
        = load_images_threaded decode mkBg (pre ++ post)) ∧
    (∀ (p : String) (img : Img) (rest : List String), decode p = some img →
      load_images_threaded decode mkBg (p :: rest)
        = ⟨p, img, mkBg img⟩ :: load_images_threaded decode mkBg rest) := by
  refine ⟨fun h => by simp [scan_images, h], fun files h => ?_,
          fun pre post p hp => ?_, fun p img rest hp => ?_⟩
  · rw [scan_images, h]
    exact ⟨List.perm_insertionSort _ _, List.sorted_insertionSort _ _⟩
  · induction pre with
    | nil => simp [load_images_threaded, hp]
    | cons q pre ih =>
      cases hq : decode q <;> simp [load_images_threaded, hq, ih]
  · simp [load_images_threaded, hp]

/-- Witness for C8 at a concrete listing and decoder (`a.txt` is
filtered out by extension; `c.jpeg` fails to decode and is skipped). -/
theorem c8_image_set_loader_witness :
    ((fun d => if d == "imgs" then some ["c.jpeg", "a.txt", "b.JPG"] else none)
        "imgs" = some ["c.jpeg", "a.txt", "b.JPG"]) ∧
    (List.Perm
      (scan_images
        (fun d => if d == "imgs" then some ["c.jpeg", "a.txt", "b.JPG"] else none)
        "imgs")
      (["c.jpeg", "a.txt", "b.JPG"].filter isJpgExt) ∧
     List.Sorted (· ≤ ·)
      (scan_images
        (fun d => if d == "imgs" then some ["c.jpeg", "a.txt", "b.JPG"] else none)
        "imgs")) ∧
    ((fun p => if p == "b.JPG" then some (1 : Nat) else none) "c.jpeg" = none) ∧
    load_images_threaded (fun p => if p == "b.JPG" then some (1 : Nat) else none)
      (fun i => i + 10) (["b.JPG"] ++ "c.jpeg" :: [])
      = load_images_threaded (fun p => if p == "b.JPG" then some (1 : Nat) else none)
          (fun i => i + 10) (["b.JPG"] ++ []) := by
  refine ⟨rfl,
    (c8_image_set_loader
      (fun d => if d == "imgs" then some ["c.jpeg", "a.txt", "b.JPG"] else none)
      "imgs" (fun p => if p == "b.JPG" then some (1 : Nat) else none)
      (fun i => i + 10)).2.1 ["c.jpeg", "a.txt", "b.JPG"] rfl,
    rfl,
    (c8_image_set_loader
      (fun d => if d == "imgs" then some ["c.jpeg", "a.txt", "b.JPG"] else none)
      "imgs" (fun p => if p == "b.JPG" then some (1 : Nat) else none)
      (fun i => i + 10)).2.2.1 ["b.JPG"] [] "c.jpeg" rfl⟩

/-- Helper for C6: a catalog in which no row passes the `enabled == 1`
filter yields no menu items (rows whose `enabled` field fails to parse
abort the loop, which also contributes no item). -/
theorem parseRows_nil_of_none_selected (root : String)
    (L : String → Option (List String)) (rows : List (List String))
    (h : ∀ r ∈ rows, rowSelected r = false) :
    parseRows root L rows = [] := by
  induction rows with
  | nil => rfl
  | cons r rest ih =>
    have hr := h r (List.mem_cons_self r rest)
    have hrest := fun q hq => h q (List.mem_cons_of_mem r hq)
    by_cases hlen : r.length > 3
    · cases hen : pyInt (fld r 2) with
      | none => simp [parseRows, hlen, hen]
      | some k =>
        have hk : ¬ (k = 1) := by
          simp [rowSelected, hlen, hen] at hr
          exact hr
        simp [parseRows, hlen, hen, hk, ih hrest]
    · simp [parseRows, hlen, ih hrest]

/-- Claim C6: a missing menu catalog file — and likewise a catalog from
which zero categories survive the enabled filter — terminates the process
with exit status 1 (the string argument to `sys.exit` makes the status 1,
and the `SystemExit` passes through the top-level `except Exception`);
a normal quit terminates with exit status 0. -/
theorem c6_exit_status :
    (∀ (root : String) (L : String → Option (List String)),
      (init_content_exit (load_menu_structure root L none)).map sysExitStatus
        = some 1) ∧
    (∀ (root : String) (L : String → Option (List String))
        (rows : List (List String)),
      (∀ r ∈ rows, rowSelected r = false) →
      (init_content_exit (load_menu_structure root L (some rows))).map
          sysExitStatus = some 1) ∧
    sysExitStatus RUN_QUIT_EXIT = 0 := by
  refine ⟨fun root L => rfl, fun root L rows h => ?_, rfl⟩
  rw [load_menu_structure, parseRows_nil_of_none_selected root L rows h]
  rfl

/-- Witness for C6 with a concrete all-disabled catalog. -/
theorem c6_exit_status_witness :
    (∀ r ∈ [["1", "a", "0", "X", "d"]], rowSelected r = false) ∧
    (init_content_exit (load_menu_structure "r" (fun _ => none)
        (some [["1", "a", "0", "X", "d"]]))).map sysExitStatus = some 1 :=
  ⟨by decide, c6_exit_status.2.1 "r" (fun _ => none)
    [["1", "a", "0", "X", "d"]] (by decide)⟩

/-- A row failing a field parse stops the loop with no further items:
the `ValueError` of line 96 or 102 leaves the `for` of lines 95-108. -/
theorem parseRows_abort (root : String) (L : String → Option (List String))
    (row : List String) (post : List (List String)) (h : rowOk row = false) :
    parseRows root L (row :: post) = [] := by
  by_cases hlen : row.length > 3
  · cases hen : pyInt (fld row 2) with
    | none => simp [parseRows, hlen, hen]
    | some k =>
      by_cases hk : k = 1
      · subst hk
        cases hid : pyInt (pyStrip (fld row 0)) with
        | none => simp [parseRows, hlen, hen, hid]
        | some v => simp [rowOk, hlen, hen, hid] at h
      · simp [rowOk, hlen, hen, hk] at h
  · simp [rowOk, hlen] at h

/-- A row that parses cleanly contributes its item exactly when selected
by the `enabled == 1` filter, and the loop continues either way. -/
theorem parseRows_cons_ok (root : String) (L : String → Option (List String))
    (r : List String) (rest : List (List String)) (h : rowOk r = true) :
    parseRows root L (r :: rest) =
      if rowSelected r then rowToItem root L r :: parseRows root L rest
      else parseRows root L rest := by
  by_cases hlen : r.length > 3
  · cases hen : pyInt (fld r 2) with
    | none => simp [rowOk, hlen, hen] at h
    | some k =>
      by_cases hk : k = 1
      · subst hk
        cases hid : pyInt (pyStrip (fld r 0)) with
        | none => simp [rowOk, hlen, hen, hid] at h
        | some v => simp [parseRows, rowSelected, hlen, hen, hid]
      · simp [parseRows, rowSelected, hlen, hen, hk]
  · simp [parseRows, rowSelected, hlen]

/-- Claim C4 (amended): a parse failure on an individual field of a row
(non-integer `enabled` on a row of more than 3 fields, or non-integer
`id` when `enabled` is 1) is not row-level: it aborts the batch at that
row — the categories parsed from earlier rows are returned, and the
failing row and every later row are dropped. -/
theorem c4_field_error_aborts_batch (root : String)
    (L : String → Option (List String)) (pre : List (List String))
    (row : List String) (post : List (List String))
    (hpre : ∀ r ∈ pre, rowOk r = true) (hrow : rowOk row = false) :
    parseRows root L (pre ++ row :: post) = parseRows root L pre := by
  induction pre with
  | nil => simpa using parseRows_abort root L row post hrow
  | cons q pre ih =>
    have hq := hpre q (List.mem_cons_self q pre)
    have hpre' := fun r hr => hpre r (List.mem_cons_of_mem q hr)
    rw [List.cons_append, parseRows_cons_ok root L q _ hq,
      parseRows_cons_ok root L q pre hq]
    split <;> simp [ih hpre']

/-- Counterexample to C4 as stated: in a catalog whose second row has a
non-integer id, the third row (well-formed and enabled) is NOT parsed
into the returned list — the batch is aborted, so item-level failure is
not row-level. -/
theorem c4_counterexample :
    (load_menu_structure "r" (fun _ => none)
      (some [["1", "a", "1", "Alpha", "d"], ["x", "b", "1", "Beta", "d"],
             ["2", "c", "1", "Gamma", "d"]])).map (fun it => it.menu_name)
      = ["Alpha"] ∧
    rowSelected ["2", "c", "1", "Gamma", "d"] = true ∧
    ¬ ("Gamma" ∈ (load_menu_structure "r" (fun _ => none)
      (some [["1", "a", "1", "Alpha", "d"], ["x", "b", "1", "Beta", "d"],
             ["2", "c", "1", "Gamma", "d"]])).map (fun it => it.menu_name)) := by
  refine ⟨by decide, by decide, by decide⟩

/-- Witness for C4's amended theorem at a concrete catalog. -/
theorem c4_field_error_aborts_batch_witness :
    (∀ r ∈ [["1", "a", "1", "Alpha", "d"]], rowOk r = true) ∧
    rowOk ["x", "b", "1", "Beta", "d"] = false ∧
    parseRows "r" (fun _ => none)
        ([["1", "a", "1", "Alpha", "d"]] ++ ["x", "b", "1", "Beta", "d"] ::
          [["2", "c", "1", "Gamma", "d"]])
      = parseRows "r" (fun _ => none) [["1", "a", "1", "Alpha", "d"]] :=
  ⟨by decide, by decide,
   c4_field_error_aborts_batch "r" (fun _ => none)
     [["1", "a", "1", "Alpha", "d"]] ["x", "b", "1", "Beta", "d"]
     [["2", "c", "1", "Gamma", "d"]] (by decide) (by decide)⟩

/-- Claim C7 (amended): for every catalog whose rows all parse cleanly,
the loaded list contains exactly the rows with at least 4 fields and
`enabled == 1`, in file order, duplicates kept (it is the filtered rows
mapped to their items); and the Nature/City example yields exactly the
one entry Nature.  (Without the cleanliness hypothesis a parse failure
aborts the batch and later enabled rows are dropped.) -/
theorem c7_filter_preserves_order (root : String)
    (L : String → Option (List String)) (rows : List (List String))
    (hok : ∀ r ∈ rows, rowOk r = true) :
    parseRows root L rows
      = (rows.filter rowSelected).map (rowToItem root L) ∧
    (load_menu_structure "r0" (fun _ => none)
      (some [["1", "a", "1", "Nature", "x"], ["2", "b", "0", "City", "y"]])).map
        (fun it => it.menu_name) = ["Nature"] := by
  constructor
  · induction rows with
    | nil => rfl
    | cons r rest ih =>
      have hr := hok r (List.mem_cons_self r rest)
      have hrest := fun q hq => hok q (List.mem_cons_of_mem r hq)
      rw [parseRows_cons_ok root L r rest hr, List.filter_cons]
      by_cases hs : rowSelected r <;> simp [hs, ih hrest]
  · decide

/-- Counterexample to C7 as stated: a catalog whose first row has a
non-integer `enabled` field returns no categories at all, although its
second row has at least 4 fields and `enabled == 1` and so should be the
single loaded entry per the claim. -/
theorem c7_counterexample :
    rowSelected ["2", "b", "1", "City", "d"] = true ∧
    (load_menu_structure "r" (fun _ => none)
      (some [["1", "a", "z", "Nature", "d"], ["2", "b", "1", "City", "d"]])).map
        (fun it => it.menu_name) = [] := by
  refine ⟨by decide, by decide⟩

/-- Witness for C7's amended theorem, with a duplicated id kept. -/
theorem c7_filter_preserves_order_witness :
    (∀ r ∈ [["1", "a", "1", "Nature", "x"], ["2", "b", "0", "City", "y"],
            ["1", "c", "1", "Dup", "z"]], rowOk r = true) ∧
    parseRows "r" (fun _ => none)
        [["1", "a", "1", "Nature", "x"], ["2", "b", "0", "City", "y"],
         ["1", "c", "1", "Dup", "z"]]
      = ([["1", "a", "1", "Nature", "x"], ["2", "b", "0", "City", "y"],
          ["1", "c", "1", "Dup", "z"]].filter rowSelected).map
          (rowToItem "r" (fun _ => none)) :=
  ⟨by decide,
   (c7_filter_preserves_order "r" (fun _ => none)
     [["1", "a", "1", "Nature", "x"], ["2", "b", "0", "City", "y"],
      ["1", "c", "1", "Dup", "z"]] (by decide)).1⟩

/-- Counterexample to C1 as stated: the line-328 guard and the line-329
append are separate steps, so with requests 1 then 2 issued in order,
the interleaving "worker 1 evaluates its guard (true, 1 = 1); the
display thread triggers request 2 (queue cleared, counter now 2);
worker 1 appends" leaves request 1's stale result in the queue while
the counter is 2 — the claimed invariant `QueueInv` fails — and the
next poll commits request 1's content, because the consumer never
compares ids at consume time. -/
theorem c1_counterexample :
    (runSys DEFAULT_CONFIG
        [SysAct.trigger 0 [sampleRes], SysAct.workerGuard 0,
         SysAct.trigger 1 [sampleRes2], SysAct.workerPost 0]
        ⟨initState [] [], []⟩).app.loaded_result_queue = [(1, [sampleRes])] ∧
    (runSys DEFAULT_CONFIG
        [SysAct.trigger 0 [sampleRes], SysAct.workerGuard 0,
         SysAct.trigger 1 [sampleRes2], SysAct.workerPost 0]
        ⟨initState [] [], []⟩).app.load_request_id = 2 ∧
    ¬ QueueInv (runSys DEFAULT_CONFIG
        [SysAct.trigger 0 [sampleRes], SysAct.workerGuard 0,
         SysAct.trigger 1 [sampleRes2], SysAct.workerPost 0]
        ⟨initState [] [], []⟩).app ∧
    (runSys DEFAULT_CONFIG
        [SysAct.trigger 0 [sampleRes], SysAct.workerGuard 0,
         SysAct.trigger 1 [sampleRes2], SysAct.workerPost 0,
         SysAct.pollComplete]
        ⟨initState [] [], []⟩).app.current_img_list = [sampleRes] ∧
    (runSys DEFAULT_CONFIG
        [SysAct.trigger 0 [sampleRes], SysAct.workerGuard 0,
         SysAct.trigger 1 [sampleRes2], SysAct.workerPost 0,
         SysAct.pollComplete]
        ⟨initState [] [], []⟩).app.load_request_id = 2 := by
  refine ⟨rfl, rfl, fun h => ?_, rfl, rfl⟩
  exact absurd (h (1, [sampleRes]) (List.mem_singleton_self _)) (by decide)

/-- Claim C1 (amended): a result is committed only if its request id
equalled the counter when its worker evaluated the line-328 guard; when
neither worker's guard-to-append window straddles a trigger, the
protocol behaves as claimed — with requests 1 then 2 issued in order,
request 2's content is committed and request 1's is discarded (its
append step changes no display state), whichever order the two
hand-offs complete in after the second trigger.  But the guard and the
append are separately interleavable with the display thread, so a
trigger arriving between request 1's guard and its append lets the
stale result be queued and committed — the consumer never re-checks the
id, and "only the result whose request id equals the current counter at
the time it is consumed" does not hold in general. -/
theorem c1_guarded_handoff_commits_newest {Img : Type} (cfg : PyDict)
    (s0 : AppState Img) (hz : s0.load_request_id = 0)
    (i j : Nat) (res1 res2 : List (ImageResource Img)) :
    (runSys cfg
        [.trigger i res1, .trigger j res2, .workerGuard 1, .workerPost 1,
         .workerGuard 0, .workerPost 0, .pollComplete]
        ⟨s0, []⟩).app.current_img_list = res2 ∧
    (runSys cfg
        [.trigger i res1, .trigger j res2, .workerGuard 0, .workerPost 0,
         .workerGuard 1, .workerPost 1, .pollComplete]
        ⟨s0, []⟩).app.current_img_list = res2 ∧
    (sysStep cfg (.workerPost 0)
        (runSys cfg [.trigger i res1, .trigger j res2, .workerGuard 0]
          ⟨s0, []⟩)).app
      = (runSys cfg [.trigger i res1, .trigger j res2, .workerGuard 0]
          ⟨s0, []⟩).app := by
  refine ⟨?_, ?_, ?_⟩
  · cases res2 with
    | nil =>
      simp [runSys, sysStep, trigger_category_load, check_loading_complete,
        List.get?, List.set, hz]
    | cons x xs =>
      simp [runSys, sysStep, trigger_category_load, check_loading_complete,
        List.get?, List.set, hz]
  · cases res2 with
    | nil =>
      simp [runSys, sysStep, trigger_category_load, check_loading_complete,
        List.get?, List.set, hz]
    | cons x xs =>
      simp [runSys, sysStep, trigger_category_load, check_loading_complete,
        List.get?, List.set, hz]
  · simp [runSys, sysStep, trigger_category_load, List.get?, List.set, hz]

/-- Witness for C1's amended theorem: from a freshly initialized state,
with both hand-offs after the second trigger, request 2's delivery wins
even though request 1's worker finishes last. -/
theorem c1_guarded_handoff_commits_newest_witness :
    (initState [] [] : AppState Nat).load_request_id = 0 ∧
    (runSys DEFAULT_CONFIG
        [SysAct.trigger 0 [sampleRes], SysAct.trigger 1 [sampleRes2],
         SysAct.workerGuard 1, SysAct.workerPost 1,
         SysAct.workerGuard 0, SysAct.workerPost 0, SysAct.pollComplete]
        ⟨initState [] [], []⟩).app.current_img_list = [sampleRes2] :=
  ⟨rfl, (c1_guarded_handoff_commits_newest DEFAULT_CONFIG (initState [] [])
      rfl 0 1 [sampleRes] [sampleRes2]).1⟩

end WallDisplay
